import Mathlib

/-!
Verification of the SHKeeper HD-wallet subsystem against its specification.

The Lean definitions below are a shallow embedding of the Python sources:
  - shkeeper/modules/classes/hd_wallet.py       (HDWalletProvider)
  - shkeeper/modules/classes/getblock_client.py (GetBlockClient)
  - shkeeper/modules/cryptos/btc_hdwallet.py    (BtcHDWallet)
  - shkeeper/modules/cryptos/ltc_hdwallet.py    (LtcHDWallet)

Python exceptions are modelled by the inductive type PyErr and fallible
functions return Except PyErr.  The external cryptographic library
(bitcoinlib: HDKey, Mnemonic, Network) is abstracted by the structure
HDLib, and Fernet authenticated decryption by FernetLib; both are treated
as opaque deterministic functions, which is all the Python code relies on.
The class-level mutable dictionary HDWalletProvider._index_counters is
modelled as an explicit association list (Counters) threaded through the
operations; the threading.Lock makes each read-increment of a counter a
single atomic step, so a concurrent execution is modelled as a sequence of
such atomic steps.
-/

set_option autoImplicit false

namespace Shkeeper

/-- Model of the Python exceptions raised by the embedded code.
ValueError, cryptography.fernet.InvalidToken, FileNotFoundError, KeyError,
httpx.HTTPError and TypeError each get a constructor carrying the message. -/
inductive PyErr where
  | valueError : String → PyErr
  | invalidToken : String → PyErr
  | fileNotFound : String → PyErr
  | keyError : String → PyErr
  | httpError : String → PyErr
  | typeError : String → PyErr
deriving DecidableEq

/-- The str() of an exception: its message. -/
def PyErr.msg : PyErr → String
  | .valueError m => m
  | .invalidToken m => m
  | .fileNotFound m => m
  | .keyError m => m
  | .httpError m => m
  | .typeError m => m

/-- The class-level dictionary HDWalletProvider._index_counters
(format: currency ticker to current index), as an association list. -/
abbrev Counters := List (String × Nat)

/-- Dictionary read: counters[c], as an Option (none models KeyError). -/
def lookupCounter : Counters → String → Option Nat
  | [], _ => none
  | (k, v) :: rest, c => if k = c then some v else lookupCounter rest c

/-- Dictionary write: counters[c] = n (replaces, or appends a new key
at the end as a Python dict insertion does). -/
def setCounter : Counters → String → Nat → Counters
  | [], c, n => [(c, n)]
  | (k, v) :: rest, c, n =>
      if k = c then (c, n) :: rest else (k, v) :: setCounter rest c n

/-- hd_wallet.py lines 135-137: inside the lock, __init__ sets the counter
for the currency to 0 if the currency has no counter yet. -/
def initCounter (cs : Counters) (c : String) : Counters :=
  if (lookupCounter cs c).isSome then cs else cs ++ [(c, 0)]

/-- hd_wallet.py BIP44_PATHS table (lines 46-49). -/
def BIP44_PATHS : List (String × String) :=
  [("BTC", "m/44\x27/0\x27/0\x27/0"), ("LTC", "m/44\x27/2\x27/0\x27/0")]

/-- hd_wallet.py BITCOIN_NETWORKS table (lines 52-55). -/
def BITCOIN_NETWORKS : List (String × String) :=
  [("mainnet", "bitcoin"), ("testnet", "testnet")]

/-- hd_wallet.py LITECOIN_NETWORKS table (lines 58-61). -/
def LITECOIN_NETWORKS : List (String × String) :=
  [("mainnet", "litecoin"), ("testnet", "litecoin_testnet")]

/-- Dictionary read on the string tables above (none models KeyError). -/
def lookupTable : List (String × String) → String → Option String
  | [], _ => none
  | (k, v) :: rest, c => if k = c then some v else lookupTable rest c

/-- Abstraction of the bitcoinlib primitives used by hd_wallet.py.
K is the type of master keys (HDKey), C of child keys, B of binary seeds.
All are deterministic functions, which is the only property the Python
code relies on; the theorems hold for every such library. -/
structure HDLib (K C B : Type) where
  from_seed : B → K
  subkey_for_path : K → String → C
  addressOf : C → String → String
  to_seed : String → Except String B

/-- The immutable per-instance attributes of HDWalletProvider set by
__init__ (currency, network, master_key).  The mutable index counters are
class-level state and live in Counters, not here. -/
structure HDWalletProvider (K : Type) where
  currency : String
  network : String
  master_key : K

/-- Network-name selection of _derive_address_at_index
(hd_wallet.py lines 250-256), including the silent
network_name = "bitcoin" fallback for any other currency. -/
def networkNameFor (currency network : String) : Option String :=
  if currency = "BTC" then lookupTable BITCOIN_NETWORKS network
  else if currency = "LTC" then lookupTable LITECOIN_NETWORKS network
  else some "bitcoin"

variable {K C B : Type}

/-- HDWalletProvider._derive_address_at_index (hd_wallet.py lines 228-262):
look up the BIP44 base path for the currency, append the index, derive the
child key, select the network name, assign it and render the address. -/
def deriveAddressAtIndexPriv (lib : HDLib K C B) (p : HDWalletProvider K)
    (index : Nat) : Except PyErr String :=
  match lookupTable BIP44_PATHS p.currency with
  | none => .error (.keyError p.currency)
  | some base_path =>
    let full_path := base_path ++ "/" ++ toString index
    let child_key := lib.subkey_for_path p.master_key full_path
    match networkNameFor p.currency p.network with
    | none => .error (.keyError p.network)
    | some network_name => .ok (lib.addressOf child_key network_name)

/-- HDWalletProvider.derive_address_at_index (hd_wallet.py lines 277-293):
the public non-allocating read path, delegating to _derive_address_at_index. -/
def derive_address_at_index (lib : HDLib K C B) (p : HDWalletProvider K)
    (index : Nat) : Except PyErr String :=
  deriveAddressAtIndexPriv lib p index

/-- derive_address_at_index run against the class-level counter state: the
method body never mentions _index_counters, so the state passes through. -/
def derive_address_at_index_run (lib : HDLib K C B) (p : HDWalletProvider K)
    (cs : Counters) (index : Nat) : Except PyErr String × Counters :=
  (derive_address_at_index lib p index, cs)

/-- The critical section of derive_next_address (hd_wallet.py lines
215-217): read the counter for the currency (KeyError if absent) and
increment it, returning the read value.  The threading.Lock makes this one
atomic step. -/
def nextIndexAlloc (cs : Counters) (c : String) :
    Except PyErr (Nat × Counters) :=
  match lookupCounter cs c with
  | none => .error (.keyError c)
  | some index => .ok (index, setCounter cs c (index + 1))

/-- HDWalletProvider.derive_next_address (hd_wallet.py lines 193-226):
atomically allocate the next index, then derive the address outside the
lock.  If derivation raises, the counter stays incremented. -/
def derive_next_address (lib : HDLib K C B) (p : HDWalletProvider K)
    (cs : Counters) : Except PyErr (String × Nat) × Counters :=
  match nextIndexAlloc cs p.currency with
  | .error e => (.error e, cs)
  | .ok (index, cs1) =>
    match deriveAddressAtIndexPriv lib p index with
    | .error e => (.error e, cs1)
    | .ok address => (.ok (address, index), cs1)

/-- HDWalletProvider.get_current_index (hd_wallet.py lines 264-275). -/
def get_current_index (p : HDWalletProvider K) (cs : Counters) : Nat :=
  (lookupCounter cs p.currency).getD 0

/-- Abstraction of Fernet authenticated decryption: for a key and a
ciphertext it either fails (InvalidToken: wrong key or tampered data) or
yields the authentic decoded plaintext. -/
structure FernetLib where
  decrypt : String → List Nat → Except Unit String

/-- Python str.strip() with no argument: drop leading and trailing
whitespace. -/
def pyStrip (s : String) : String :=
  String.mk
    (((s.data.dropWhile Char.isWhitespace).reverse.dropWhile Char.isWhitespace).reverse)

/-- Helper for pySplitWords: walk the characters accumulating the current
word (reversed) and emit it at each whitespace run. -/
def splitWhitespaceAux : List Char → List Char → List String
  | [], [] => []
  | [], acc => [String.mk acc.reverse]
  | ch :: rest, acc =>
    if ch.isWhitespace then
      match acc with
      | [] => splitWhitespaceAux rest []
      | _ => String.mk acc.reverse :: splitWhitespaceAux rest []
    else splitWhitespaceAux rest (ch :: acc)

/-- Python str.split() with no argument: split on whitespace runs,
dropping empty fragments. -/
def pySplitWords (s : String) : List String :=
  splitWhitespaceAux s.data []

/-- HDWalletProvider._load_master_key (hd_wallet.py lines 143-191):
read the seed file (FileNotFoundError if absent), Fernet-decrypt it
(InvalidToken on authentication failure), strip, check the BIP39 word
count, convert the mnemonic to a binary seed (ValueError if the library
rejects it) and derive the master key. -/
def load_master_key (fern : FernetLib) (lib : HDLib K C B)
    (seedFileContents : Option (List Nat)) (encryption_key : String) :
    Except PyErr K :=
  match seedFileContents with
  | none => .error (.fileNotFound "Encrypted seed file not found")
  | some encrypted_data =>
    match fern.decrypt encryption_key encrypted_data with
    | .error _ => .error (.invalidToken
        "Failed to decrypt seed file. Check HD_WALLET_ENCRYPTION_KEY environment variable.")
    | .ok decoded =>
      let seed_phrase := pyStrip decoded
      let words := pySplitWords seed_phrase
      if words.length = 12 ∨ words.length = 15 ∨ words.length = 18 ∨
          words.length = 21 ∨ words.length = 24 then
        match lib.to_seed seed_phrase with
        | .error e => .error (.valueError ("Invalid BIP39 mnemonic phrase: " ++ e))
        | .ok seed_bytes => .ok (lib.from_seed seed_bytes)
      else
        .error (.valueError ("Invalid BIP39 seed phrase. Expected 12/15/18/21/24 words, got: "
          ++ toString words.length ++ " words"))

/-- HDWalletProvider.__init__ (hd_wallet.py lines 98-141): validate the
currency against BIP44_PATHS and the network against the fixed pair,
load the master key, then initialize the class-level counter for the
currency. -/
def providerInit (fern : FernetLib) (lib : HDLib K C B) (currency : String)
    (seedFileContents : Option (List Nat)) (encryption_key : String)
    (network : String) (cs : Counters) :
    Except PyErr (HDWalletProvider K × Counters) :=
  if (lookupTable BIP44_PATHS currency).isNone then
    .error (.valueError ("Unsupported currency: " ++ currency ++ ". Supported: [BTC, LTC]"))
  else if ¬(network = "mainnet" ∨ network = "testnet") then
    .error (.valueError ("Invalid network: " ++ network ++ ". Must be \x27mainnet\x27 or \x27testnet\x27"))
  else
    match load_master_key fern lib seedFileContents encryption_key with
    | .error e => .error e
    | .ok mk =>
      .ok ({ currency := currency, network := network, master_key := mk },
           initCounter cs currency)

/-- Parameter values of a JSON-RPC call as built by getblock_client.py. -/
inductive RpcParam where
  | int : Int → RpcParam
  | str : String → RpcParam
  | strList : List String → RpcParam
deriving DecidableEq

/-- One unspent output as returned by listunspent: the fields the
embedded code reads. -/
structure Utxo where
  txid : String
  vout : Nat
  amount : Rat
deriving DecidableEq

/-- The shapes of JSON result values the client methods handle. -/
inductive RpcResult where
  | utxoList : List Utxo → RpcResult
  | txPayload : String → RpcResult
  | number : Int → RpcResult
deriving DecidableEq

/-- Outcome of one HTTPS POST to the GetBlock endpoint, as observed by
_rpc_call: a transport or non-2xx failure (httpx.HTTPError, including what
raise_for_status raises), a well-formed non-null JSON-RPC error member
with code and message, or a success whose result member may be absent. -/
inductive RpcOutcome where
  | httpFailure : String → RpcOutcome
  | errorObj : Int → String → RpcOutcome
  | success : Option RpcResult → RpcOutcome

/-- The remote service: what it answers to each (method, params) request. -/
structure RpcServer where
  respond : String → List RpcParam → RpcOutcome

/-- GetBlockClient._rpc_call (getblock_client.py lines 101-159): POST the
payload; on httpx.HTTPError log and re-raise; on a non-null error member
raise ValueError with the error message; otherwise return the result. -/
def rpc_call (srv : RpcServer) (method : String) (params : List RpcParam) :
    Except PyErr (Option RpcResult) :=
  match srv.respond method params with
  | .httpFailure e => .error (.httpError e)
  | .errorObj _ message =>
      .error (.valueError ("RPC error calling " ++ method ++ ": " ++ message))
  | .success r => .ok r

/-- Sum of the amount fields of a list of unspent outputs. -/
def sumUtxoAmounts (utxos : List Utxo) : Rat :=
  (utxos.map Utxo.amount).sum

/-- GetBlockClient.get_address_balance (getblock_client.py lines 161-213):
listunspent with minconf 0, maxconf 9999999 and the single address;
a falsy result (absent or empty list) yields Decimal 0; otherwise the
amounts are summed.  The number and txPayload arms mirror CPython
semantics on those result shapes: a falsy value still returns 0, a truthy
non-list raises TypeError from the sum.  The surrounding try/except
re-raises, so it is the identity on the error. -/
def get_address_balance (srv : RpcServer) (address : String) :
    Except PyErr Rat :=
  match rpc_call srv "listunspent" [.int 0, .int 9999999, .strList [address]] with
  | .error e => .error e
  | .ok none => .ok 0
  | .ok (some (.utxoList utxos)) =>
      if utxos = [] then .ok 0 else .ok (sumUtxoAmounts utxos)
  | .ok (some (.number n)) =>
      if n = 0 then .ok 0 else .error (.typeError "int object is not iterable")
  | .ok (some (.txPayload s)) =>
      if s = "" then .ok 0 else .error (.typeError "string indices must be integers")

/-- GetBlockClient.get_transaction (getblock_client.py lines 257-288):
any ValueError from _rpc_call (i.e. any well-formed JSON-RPC error object)
is caught and mapped to None; every other exception is re-raised. -/
def get_transaction (srv : RpcServer) (txid : String) :
    Except PyErr (Option RpcResult) :=
  match rpc_call srv "gettransaction" [.str txid] with
  | .ok tx => .ok tx
  | .error (.valueError _) => .ok none
  | .error e => .error e

/-- GetBlockClient.get_raw_transaction (getblock_client.py lines 290-319):
same error mapping as get_transaction, with the verbosity flag encoded as
1 or 0 in the params. -/
def get_raw_transaction (srv : RpcServer) (txid : String) (verbose : Bool) :
    Except PyErr (Option RpcResult) :=
  match rpc_call srv "getrawtransaction" [.str txid, .int (if verbose then 1 else 0)] with
  | .ok tx => .ok tx
  | .error (.valueError _) => .ok none
  | .error e => .error e

/-- Outcomes of the external calls made by BtcHDWallet.getbalance /
LtcHDWallet.getbalance for one address: constructing the GetBlock client,
querying it, and the parent-class (node wallet) query.  The two crypto
modules are line-for-line identical here, so one embedding covers both. -/
structure GetbalanceEnv where
  createClientResult : Except PyErr Unit
  getblockBalanceResult : Except PyErr Rat
  nodeWalletBalanceResult : Except PyErr Rat

/-- The mutable fields of the crypto module read by getbalance. -/
structure HDModuleState where
  getblock_client : Option Unit
  use_getblock_for_balance : Bool

/-- The try/except around the GetBlock query (btc_hdwallet.py lines
170-177): on success return the balance, on any failure fall back to the
parent-class result, whatever it is. -/
def getbalanceQuery (env : GetbalanceEnv) (st : HDModuleState) :
    Except PyErr Rat × HDModuleState :=
  match env.getblockBalanceResult with
  | .ok balance => (.ok balance, st)
  | .error _ => (env.nodeWalletBalanceResult, st)

/-- BtcHDWallet.getbalance / LtcHDWallet.getbalance (btc_hdwallet.py lines
137-180, ltc_hdwallet.py lines 140-183): if GetBlock is preferred, lazily
create the client (falling back to the parent on construction failure),
query it, and on query failure return the parent-class result; otherwise
use the parent class directly. -/
def getbalance (env : GetbalanceEnv) (st : HDModuleState) :
    Except PyErr Rat × HDModuleState :=
  if st.use_getblock_for_balance then
    match st.getblock_client with
    | none =>
      match env.createClientResult with
      | .error _ => (env.nodeWalletBalanceResult, st)
      | .ok c => getbalanceQuery env { st with getblock_client := some c }
    | some _ => getbalanceQuery env st
  else (env.nodeWalletBalanceResult, st)

/-- Outcome of create_hd_wallet_provider() as called by mkaddr. -/
structure MkaddrEnv (K : Type) where
  createProviderResult : Except PyErr (HDWalletProvider K)

/-- The mutable field of the crypto module read by mkaddr. -/
structure CryptoModuleState (K : Type) where
  hd_provider : Option (HDWalletProvider K)

/-- The derivation half of mkaddr (btc_hdwallet.py lines 128-135): call
derive_next_address and return the address; the except clause re-raises. -/
def mkaddrDerive (lib : HDLib K C B) (p : HDWalletProvider K)
    (st : CryptoModuleState K) (cs : Counters) :
    Except PyErr String × CryptoModuleState K × Counters :=
  match derive_next_address lib p cs with
  | (.ok (address, _), cs1) => (.ok address, st, cs1)
  | (.error e, cs1) => (.error e, st, cs1)

/-- BtcHDWallet.mkaddr / LtcHDWallet.mkaddr (btc_hdwallet.py lines 88-135,
ltc_hdwallet.py lines 90-138): if hd_provider is None, construct it; a
construction failure leaves hd_provider unset and raises ValueError with a
configuration message wrapping the original error; then derive the next
address. -/
def mkaddr (lib : HDLib K C B) (env : MkaddrEnv K)
    (st : CryptoModuleState K) (cs : Counters) :
    Except PyErr String × CryptoModuleState K × Counters :=
  match st.hd_provider with
  | none =>
    match env.createProviderResult with
    | .error e =>
        (.error (.valueError ("HD wallet configuration error: " ++ e.msg)), st, cs)
    | .ok p => mkaddrDerive lib p { hd_provider := some p } cs
  | some p => mkaddrDerive lib p st cs

/-- A run of the allocator: one derive_next_address call per provider in
the list, threading the class-level counters.  Because the critical
section is atomic, any concurrent execution of these calls is equivalent
to some such sequential run; the list fixes the interleaving order. -/
def runDeriveNext (lib : HDLib K C B) :
    List (HDWalletProvider K) → Counters →
    List (String × Except PyErr (String × Nat)) × Counters
  | [], cs => ([], cs)
  | p :: ps, cs =>
    let r := derive_next_address lib p cs
    let rest := runDeriveNext lib ps r.2
    ((p.currency, r.1) :: rest.1, rest.2)

/-- The indices successfully issued for one currency during a run, in
call order. -/
def indicesFor (c : String)
    (results : List (String × Except PyErr (String × Nat))) : List Nat :=
  results.filterMap (fun r =>
    match r with
    | (c2, Except.ok (_, i)) => if c2 = c then some i else none
    | _ => none)

/-- A concrete bitcoinlib instance for witnesses: keys are strings and the
address records the derivation path and network, so distinct paths give
distinct addresses. -/
def stringHDLib : HDLib String String String where
  from_seed := fun s => s
  subkey_for_path := fun k path => k ++ ":" ++ path
  addressOf := fun ck nn => ck ++ "@" ++ nn
  to_seed := fun s => .ok s

/-- A concrete Fernet instance whose decryption always succeeds with the
given plaintext (models the right key on an authentic ciphertext). -/
def fernOk (plain : String) : FernetLib := ⟨fun _ _ => .ok plain⟩

/-- A concrete Fernet instance whose decryption always fails (models a
wrong key or a tampered ciphertext). -/
def fernFail : FernetLib := ⟨fun _ _ => .error ()⟩

/-- A concrete BTC mainnet provider for witnesses. -/
def btcProv : HDWalletProvider String :=
  { currency := "BTC", network := "mainnet", master_key := "mk" }

/-- A concrete LTC mainnet provider for witnesses. -/
def ltcProv : HDWalletProvider String :=
  { currency := "LTC", network := "mainnet", master_key := "mk" }

/-- A server answering every call with two unspent outputs. -/
def utxoServer : RpcServer :=
  ⟨fun _ _ => .success (some (.utxoList
    [{ txid := "t1", vout := 0, amount := (3 : Rat) / 2 },
     { txid := "t2", vout := 1, amount := (1 : Rat) / 2 }]))⟩

/-- A server answering every call with an empty unspent-output list. -/
def emptyUtxoServer : RpcServer :=
  ⟨fun _ _ => .success (some (.utxoList []))⟩

/-- A server answering every call with the JSON-RPC invalid-params error,
code -32602: a well-formed error object that is not a not-found error
(Bitcoin Core reports a missing transaction with code -5). -/
def invalidParamsServer : RpcServer :=
  ⟨fun _ _ => .errorObj (-32602) "Invalid params"⟩

/-- A server on which every HTTP request fails at the transport level. -/
def httpDownServer : RpcServer :=
  ⟨fun _ _ => .httpFailure "connect timeout"⟩

/-- getbalance environment: client construction succeeds, the GetBlock
query fails with a timeout, the node wallet also fails. -/
def envPrimaryTimeout : GetbalanceEnv :=
  { createClientResult := .ok ()
    getblockBalanceResult := .error (.valueError "getblock timeout")
    nodeWalletBalanceResult := .error (.valueError "node wallet down") }

/-- Same as envPrimaryTimeout except that the GetBlock query fails for a
different reason (an HTTP authorization failure). -/
def envPrimaryAuthFail : GetbalanceEnv :=
  { createClientResult := .ok ()
    getblockBalanceResult := .error (.httpError "getblock unauthorized")
    nodeWalletBalanceResult := .error (.valueError "node wallet down") }

/-- getbalance environment where the GetBlock query fails and the node
wallet succeeds with balance 7. -/
def envFallbackOk : GetbalanceEnv :=
  { createClientResult := .ok ()
    getblockBalanceResult := .error (.valueError "getblock timeout")
    nodeWalletBalanceResult := .ok 7 }

/-- Module state with a constructed GetBlock client and the GetBlock
preference enabled. -/
def stClientReady : HDModuleState :=
  { getblock_client := some (), use_getblock_for_balance := true }

/-- mkaddr environment whose provider construction fails (for example the
encrypted seed file is missing). -/
def mkEnvFail : MkaddrEnv String :=
  ⟨.error (.fileNotFound "Encrypted seed file not found")⟩

/-- mkaddr environment whose provider construction succeeds. -/
def mkEnvOk : MkaddrEnv String := ⟨.ok btcProv⟩

/-! ### Helper lemmas about the counter dictionary -/

theorem lookup_setCounter_self (cs : Counters) (c : String) (n : Nat) :
    lookupCounter (setCounter cs c n) c = some n := by
  induction cs with
  | nil => simp [setCounter, lookupCounter]
  | cons kv rest ih =>
    obtain ⟨k, v⟩ := kv
    by_cases h : k = c
    · simp [setCounter, lookupCounter, h]
    · simp [setCounter, lookupCounter, h, ih]

theorem lookup_setCounter_ne (cs : Counters) (c d : String) (n : Nat)
    (h : c ≠ d) :
    lookupCounter (setCounter cs c n) d = lookupCounter cs d := by
  induction cs with
  | nil => simp [setCounter, lookupCounter, h]
  | cons kv rest ih =>
    obtain ⟨k, v⟩ := kv
    by_cases hk : k = c
    · subst hk
      simp [setCounter, lookupCounter, h]
    · simp [setCounter, lookupCounter, hk, ih]

theorem isSome_lookup_setCounter (cs : Counters) (c d : String) (n : Nat)
    (h : (lookupCounter cs d).isSome) :
    (lookupCounter (setCounter cs c n) d).isSome := by
  by_cases hcd : c = d
  · subst hcd
    simp [lookup_setCounter_self]
  · rw [lookup_setCounter_ne cs c d n hcd]
    exact h

/-- One successful step of the allocator, fully computed: with the counter
at kp and valid lookup tables, derive_next_address returns index kp and
bumps the counter. -/
theorem derive_next_address_step (lib : HDLib K C B) (p : HDWalletProvider K)
    (cs : Counters) (kp : Nat) (bp nn : String)
    (hkp : lookupCounter cs p.currency = some kp)
    (hbp : lookupTable BIP44_PATHS p.currency = some bp)
    (hnn : networkNameFor p.currency p.network = some nn) :
    derive_next_address lib p cs =
      (.ok (lib.addressOf
          (lib.subkey_for_path p.master_key (bp ++ "/" ++ toString kp)) nn, kp),
       setCounter cs p.currency (kp + 1)) := by
  simp [derive_next_address, nextIndexAlloc, hkp, deriveAddressAtIndexPriv, hbp, hnn]

/-- The allocator run, generalized over the starting counter value: if the
counter for currency c starts at k, the run issues for c exactly the
consecutive indices k, k+1, ... in call order, one per call whose provider
has currency c, and leaves the counter at k plus that call count. -/
theorem runDeriveNext_general (lib : HDLib K C B)
    (ps : List (HDWalletProvider K)) (cs : Counters) (c : String) (k : Nat)
    (hinit : ∀ p ∈ ps, (lookupCounter cs p.currency).isSome)
    (hvalid : ∀ p ∈ ps, (lookupTable BIP44_PATHS p.currency).isSome ∧
        (networkNameFor p.currency p.network).isSome)
    (hc : lookupCounter cs c = some k) :
    indicesFor c (runDeriveNext lib ps cs).1 =
      List.range' k ((ps.map HDWalletProvider.currency).count c) ∧
    lookupCounter (runDeriveNext lib ps cs).2 c =
      some (k + (ps.map HDWalletProvider.currency).count c) := by
  induction ps generalizing cs k with
  | nil => simpa [runDeriveNext, indicesFor] using hc
  | cons p ps ih =>
    obtain ⟨kp, hkp⟩ := Option.isSome_iff_exists.mp (hinit p (by simp))
    obtain ⟨hbips, hnets⟩ := hvalid p (by simp)
    obtain ⟨bp, hbp⟩ := Option.isSome_iff_exists.mp hbips
    obtain ⟨nn, hnn⟩ := Option.isSome_iff_exists.mp hnets
    have hstep := derive_next_address_step lib p cs kp bp nn hkp hbp hnn
    have hinit1 : ∀ q ∈ ps,
        (lookupCounter (setCounter cs p.currency (kp + 1)) q.currency).isSome :=
      fun q hq => isSome_lookup_setCounter _ _ _ _ (hinit q (by simp [hq]))
    have hvalid1 : ∀ q ∈ ps, (lookupTable BIP44_PATHS q.currency).isSome ∧
        (networkNameFor q.currency q.network).isSome :=
      fun q hq => hvalid q (by simp [hq])
    by_cases hpc : p.currency = c
    · subst hpc
      have hkk : kp = k := by
        rw [hkp] at hc
        exact Option.some.inj hc
      subst hkk
      have hc1 : lookupCounter (setCounter cs p.currency (kp + 1)) p.currency =
          some (kp + 1) := lookup_setCounter_self cs p.currency (kp + 1)
      have hrec := ih (setCounter cs p.currency (kp + 1)) (kp + 1) hinit1 hvalid1 hc1
      constructor
      · simp only [runDeriveNext, hstep, indicesFor, List.filterMap_cons]
        simp only [indicesFor] at hrec
        simp [hrec.1, List.count_cons, List.range'_succ]
      · simp only [runDeriveNext, hstep]
        rw [hrec.2]
        simp [List.count_cons]
        omega
    · have hc1 : lookupCounter (setCounter cs p.currency (kp + 1)) c = some k := by
        rw [lookup_setCounter_ne cs p.currency c (kp + 1) hpc]
        exact hc
      have hrec := ih (setCounter cs p.currency (kp + 1)) k hinit1 hvalid1 hc1
      constructor
      · simp only [runDeriveNext, hstep, indicesFor, List.filterMap_cons]
        simp only [indicesFor] at hrec
        simp [hpc, hrec.1, List.count_cons]
      · simp only [runDeriveNext, hstep]
        rw [hrec.2]
        simp [hpc, List.count_cons]

/-! ### Claim theorems -/

/-- Claim C1: for every currency and every run of the allocator (each
counter read-increment is one atomic step under the class-level lock, so
every concurrent schedule of derive_next_address calls is equivalent to a
sequential run in some order), the indices issued for that currency are
exactly 0, 1, ..., n-1 in call order — strictly increasing, gap-free from
zero, duplicate-free: the n-th call for the currency returns n-1, and n
calls yield exactly the set of the first n naturals. -/
theorem derive_next_address_issues_range (lib : HDLib K C B)
    (ps : List (HDWalletProvider K)) (cs : Counters) (c : String)
    (hinit : ∀ p ∈ ps, (lookupCounter cs p.currency).isSome)
    (hvalid : ∀ p ∈ ps, (lookupTable BIP44_PATHS p.currency).isSome ∧
        (networkNameFor p.currency p.network).isSome)
    (hc : lookupCounter cs c = some 0) :
    indicesFor c (runDeriveNext lib ps cs).1 =
      List.range ((ps.map HDWalletProvider.currency).count c) := by
  rw [List.range_eq_range']
  exact (runDeriveNext_general lib ps cs c 0 hinit hvalid hc).1

/-- Witness for C1: three interleaved calls (BTC, LTC, BTC) starting from
freshly initialized counters issue BTC indices [0, 1]. -/
theorem derive_next_address_issues_range_witness :
    indicesFor "BTC" (runDeriveNext stringHDLib [btcProv, ltcProv, btcProv]
      [("BTC", 0), ("LTC", 0)]).1 = List.range 2 :=
  derive_next_address_issues_range stringHDLib [btcProv, ltcProv, btcProv]
    [("BTC", 0), ("LTC", 0)] "BTC" (by decide) (by decide) (by decide)

/-- Claim C2: derive_address_at_index is deterministic and side-effect
free: its result depends only on the provider attributes fixed at
construction (currency, network, master key) and the index — never on the
mutable class-level counter state, which it also leaves unchanged — so two
calls at the same index return identical strings. -/
theorem derive_address_at_index_deterministic (lib : HDLib K C B)
    (p q : HDWalletProvider K) (cs1 cs2 : Counters) (n : Nat)
    (hcur : p.currency = q.currency) (hnet : p.network = q.network)
    (hkey : p.master_key = q.master_key) :
    (derive_address_at_index_run lib p cs1 n).1 =
      (derive_address_at_index_run lib q cs2 n).1 ∧
    (derive_address_at_index_run lib p cs1 n).2 = cs1 := by
  obtain ⟨pc, pn, pk⟩ := p
  obtain ⟨qc, qn, qk⟩ := q
  cases hcur
  cases hnet
  cases hkey
  exact ⟨rfl, rfl⟩

/-- Witness for C2: deriving index 5 under two different counter states
gives the same address and does not disturb the counters. -/
theorem derive_address_at_index_deterministic_witness :
    (derive_address_at_index_run stringHDLib btcProv [("BTC", 0)] 5).1 =
      (derive_address_at_index_run stringHDLib btcProv [("BTC", 3)] 5).1 ∧
    (derive_address_at_index_run stringHDLib btcProv [("BTC", 0)] 5).2 =
      [("BTC", 0)] :=
  derive_address_at_index_deterministic stringHDLib btcProv btcProv
    [("BTC", 0)] [("BTC", 3)] 5 rfl rfl rfl

/-- Claim C10: whenever derive_next_address succeeds and returns the pair
(address, index), the non-allocating read path derive_address_at_index at
that index on the same provider returns exactly that address. -/
theorem derive_next_agrees_with_read_path (lib : HDLib K C B)
    (p : HDWalletProvider K) (cs cs2 : Counters) (address : String)
    (index : Nat)
    (h : derive_next_address lib p cs = (.ok (address, index), cs2)) :
    derive_address_at_index lib p index = .ok address := by
  unfold derive_next_address at h
  cases halloc : nextIndexAlloc cs p.currency with
  | error e =>
    rw [halloc] at h
    simp at h
  | ok pr =>
    obtain ⟨i, cs1⟩ := pr
    rw [halloc] at h
    dsimp only at h
    cases hder : deriveAddressAtIndexPriv lib p i with
    | error e =>
      rw [hder] at h
      simp at h
    | ok a =>
      rw [hder] at h
      simp only [Prod.mk.injEq, Except.ok.injEq] at h
      obtain ⟨⟨ha, hi⟩, -⟩ := h
      subst ha
      subst hi
      exact hder

/-- Witness for C10: a concrete successful allocation at BTC index 0
agrees with the read path. -/
theorem derive_next_agrees_with_read_path_witness :
    derive_address_at_index stringHDLib btcProv 0 =
      .ok ("mk:m/44\x27/0\x27/0\x27/0/0@bitcoin") :=
  derive_next_agrees_with_read_path stringHDLib btcProv [("BTC", 0)]
    [("BTC", 1)] ("mk:m/44\x27/0\x27/0\x27/0/0@bitcoin") 0 rfl

/-- Claim C9: when the provider is uninitialized and construction fails,
mkaddr surfaces a configuration ValueError wrapping the cause, leaves
hd_provider unset and the counters untouched (no permanent poisoning);
the next call with a succeeding environment retries construction from
scratch, installs the provider and proceeds to derivation. -/
theorem mkaddr_construction_failure_no_poison (lib : HDLib K C B)
    (env env2 : MkaddrEnv K) (st : CryptoModuleState K) (cs : Counters)
    (e : PyErr) (p : HDWalletProvider K)
    (hst : st.hd_provider = none)
    (hfail : env.createProviderResult = .error e)
    (hok : env2.createProviderResult = .ok p) :
    mkaddr lib env st cs =
      (.error (.valueError ("HD wallet configuration error: " ++ e.msg)), st, cs) ∧
    mkaddr lib env2 ((mkaddr lib env st cs).2.1) cs =
      mkaddrDerive lib p { hd_provider := some p } cs := by
  have h1 : mkaddr lib env st cs =
      (.error (.valueError ("HD wallet configuration error: " ++ e.msg)), st, cs) := by
    simp [mkaddr, hst, hfail]
  refine ⟨h1, ?_⟩
  rw [h1]
  simp [mkaddr, hst, hok]

/-- Witness for C9: a failed construction surfaces the wrapped error and
leaves the state unpoisoned; the retry with a working environment derives
BTC address 0. -/
theorem mkaddr_construction_failure_no_poison_witness :
    mkaddr stringHDLib mkEnvFail
        ({ hd_provider := none } : CryptoModuleState String) [("BTC", 0)] =
      (.error (.valueError "HD wallet configuration error: Encrypted seed file not found"),
       { hd_provider := none }, [("BTC", 0)]) ∧
    mkaddr stringHDLib mkEnvOk
        ((mkaddr stringHDLib mkEnvFail
          ({ hd_provider := none } : CryptoModuleState String) [("BTC", 0)]).2.1)
        [("BTC", 0)] =
      mkaddrDerive stringHDLib btcProv { hd_provider := some btcProv } [("BTC", 0)] :=
  mkaddr_construction_failure_no_poison stringHDLib mkEnvFail mkEnvOk
    { hd_provider := none } [("BTC", 0)]
    (.fileNotFound "Encrypted seed file not found") btcProv rfl rfl rfl

/-- Claim C7: seed loading maps an authenticated-decryption failure to the
distinct InvalidToken error (never a successful but corrupted mnemonic),
maps a decrypted text whose word count is outside 12/15/18/21/24 to a
ValueError naming the count (in particular 13 words), and maps a BIP39
checksum/wordlist rejection by the mnemonic library to a ValueError. -/
theorem load_master_key_error_classification (fern : FernetLib)
    (lib : HDLib K C B) (encrypted_data : List Nat) (key : String) :
    (fern.decrypt key encrypted_data = .error () →
      load_master_key fern lib (some encrypted_data) key =
        .error (.invalidToken
          "Failed to decrypt seed file. Check HD_WALLET_ENCRYPTION_KEY environment variable.")) ∧
    (∀ s, fern.decrypt key encrypted_data = .ok s →
      ¬((pySplitWords (pyStrip s)).length = 12 ∨ (pySplitWords (pyStrip s)).length = 15 ∨
        (pySplitWords (pyStrip s)).length = 18 ∨ (pySplitWords (pyStrip s)).length = 21 ∨
        (pySplitWords (pyStrip s)).length = 24) →
      load_master_key fern lib (some encrypted_data) key =
        .error (.valueError ("Invalid BIP39 seed phrase. Expected 12/15/18/21/24 words, got: "
          ++ toString (pySplitWords (pyStrip s)).length ++ " words"))) ∧
    (∀ s em, fern.decrypt key encrypted_data = .ok s →
      ((pySplitWords (pyStrip s)).length = 12 ∨ (pySplitWords (pyStrip s)).length = 15 ∨
        (pySplitWords (pyStrip s)).length = 18 ∨ (pySplitWords (pyStrip s)).length = 21 ∨
        (pySplitWords (pyStrip s)).length = 24) →
      lib.to_seed (pyStrip s) = .error em →
      load_master_key fern lib (some encrypted_data) key =
        .error (.valueError ("Invalid BIP39 mnemonic phrase: " ++ em))) := by
  refine ⟨?_, ?_, ?_⟩
  · intro h
    simp [load_master_key, h]
  · intro s hs hcount
    simp [load_master_key, hs, hcount]
  · intro s em hs hcount hts
    simp [load_master_key, hs, hcount, hts]

/-- The decrypted plaintext used below: a 13-word mnemonic. -/
def thirteenWords : String :=
  "w1 w2 w3 w4 w5 w6 w7 w8 w9 w10 w11 w12 w13"

/-- Witness for C7: a failing decryption yields InvalidToken, and a
13-word plaintext yields the ValueError naming 13 words. -/
theorem load_master_key_error_classification_witness :
    load_master_key fernFail stringHDLib (some [0]) "k" =
      .error (.invalidToken
        "Failed to decrypt seed file. Check HD_WALLET_ENCRYPTION_KEY environment variable.") ∧
    load_master_key (fernOk thirteenWords) stringHDLib (some [0]) "k" =
      .error (.valueError
        "Invalid BIP39 seed phrase. Expected 12/15/18/21/24 words, got: 13 words") := by
  constructor
  · exact (load_master_key_error_classification fernFail stringHDLib [0] "k").1 rfl
  · exact (load_master_key_error_classification (fernOk thirteenWords)
      stringHDLib [0] "k").2.1 thirteenWords rfl (by decide)

/-- Claim C6 is false on the code: the unsupported-currency and invalid-
network failures are plain ValueError — the same generic constructor used
for mnemonic failures, with no dedicated UnsupportedConfiguration type —
and the network-table selection inside _derive_address_at_index silently
substitutes the default "bitcoin" table for the unrecognized currency
DOGE instead of failing. -/
theorem unsupported_configuration_counterexample :
    networkNameFor "DOGE" "mainnet" = some "bitcoin" ∧
    providerInit fernFail stringHDLib "DOGE" (some [0]) "k" "mainnet" [] =
      .error (.valueError "Unsupported currency: DOGE. Supported: [BTC, LTC]") ∧
    load_master_key (fernOk thirteenWords) stringHDLib (some [1]) "k2" =
      .error (.valueError
        "Invalid BIP39 seed phrase. Expected 12/15/18/21/24 words, got: 13 words") :=
  ⟨rfl, rfl, rfl⟩

/-- Claim C6 amended: unsupported currency and network values are rejected
at provider construction with a generic ValueError naming the value (there
is no dedicated UnsupportedConfiguration error type), and the derivation
routine silently falls back to the "bitcoin" network table for any
currency other than BTC and LTC — though for the currencies that pass
construction validation (BTC, LTC) the matching per-currency table is
always used, so the fallback is unreachable for validly constructed
providers. -/
theorem unsupported_configuration_amended (fern : FernetLib)
    (lib : HDLib K C B) (currency network key : String)
    (fileC : Option (List Nat)) (cs : Counters) :
    (lookupTable BIP44_PATHS currency = none →
      providerInit fern lib currency fileC key network cs =
        .error (.valueError ("Unsupported currency: " ++ currency ++ ". Supported: [BTC, LTC]"))) ∧
    (∀ b, lookupTable BIP44_PATHS currency = some b →
      ¬(network = "mainnet" ∨ network = "testnet") →
      providerInit fern lib currency fileC key network cs =
        .error (.valueError ("Invalid network: " ++ network ++
          ". Must be \x27mainnet\x27 or \x27testnet\x27"))) ∧
    (currency ≠ "BTC" → currency ≠ "LTC" →
      networkNameFor currency network = some "bitcoin") ∧
    networkNameFor "BTC" network = lookupTable BITCOIN_NETWORKS network ∧
    networkNameFor "LTC" network = lookupTable LITECOIN_NETWORKS network := by
  refine ⟨?_, ?_, ?_, rfl, rfl⟩
  · intro h
    simp [providerInit, h]
  · intro b hb hn
    simp [providerInit, hb, hn]
  · intro h1 h2
    simp [networkNameFor, h1, h2]

/-- Witness for the amended C6: the rejected currency XMR, the rejected
network regtest, and the silent bitcoin fallback for XMR. -/
theorem unsupported_configuration_amended_witness :
    providerInit fernFail stringHDLib "XMR" (some [0]) "k" "mainnet" [] =
      .error (.valueError "Unsupported currency: XMR. Supported: [BTC, LTC]") ∧
    providerInit fernFail stringHDLib "BTC" (some [0]) "k" "regtest" [] =
      .error (.valueError
        "Invalid network: regtest. Must be \x27mainnet\x27 or \x27testnet\x27") ∧
    networkNameFor "XMR" "mainnet" = some "bitcoin" :=
  ⟨(unsupported_configuration_amended fernFail stringHDLib "XMR" "mainnet" "k"
      (some [0]) []).1 rfl,
   (unsupported_configuration_amended fernFail stringHDLib "BTC" "regtest" "k"
      (some [0]) []).2.1 "m/44\x27/0\x27/0\x27/0" rfl (by decide),
   (unsupported_configuration_amended fernFail stringHDLib "XMR" "mainnet" "k"
      (some [0]) []).2.2.1 (by decide) (by decide)⟩

/-- Claim C5 is false on the code: a well-formed JSON-RPC error object
with code -32602 (invalid params) — not the not-found code -5 — is still
mapped to the absent value None by get_transaction and by
get_raw_transaction instead of being propagated as a distinct RPC
failure, because _rpc_call raises plain ValueError for every error object
and both wrappers catch ValueError wholesale. -/
theorem rpc_error_mapping_counterexample :
    invalidParamsServer.respond "gettransaction" [.str "ab"] =
      .errorObj (-32602) "Invalid params" ∧
    get_transaction invalidParamsServer "ab" = .ok none ∧
    get_raw_transaction invalidParamsServer "ab" true = .ok none ∧
    (-32602 : Int) ≠ -5 :=
  ⟨rfl, rfl, rfl, by decide⟩

/-- Claim C5 amended: every well-formed JSON-RPC error object — not only
a NotFound-type one — is mapped to the absent value None by
get_transaction and get_raw_transaction; only failures outside the
well-formed-error case (HTTP/transport errors) are propagated to the
caller. -/
theorem rpc_error_mapping (srv : RpcServer) (txid : String) (code : Int)
    (msg e : String) (verbose : Bool) :
    (srv.respond "gettransaction" [.str txid] = .errorObj code msg →
      get_transaction srv txid = .ok none) ∧
    (srv.respond "gettransaction" [.str txid] = .httpFailure e →
      get_transaction srv txid = .error (.httpError e)) ∧
    (srv.respond "getrawtransaction" [.str txid, .int (if verbose then 1 else 0)] =
        .errorObj code msg →
      get_raw_transaction srv txid verbose = .ok none) ∧
    (srv.respond "getrawtransaction" [.str txid, .int (if verbose then 1 else 0)] =
        .httpFailure e →
      get_raw_transaction srv txid verbose = .error (.httpError e)) := by
  refine ⟨?_, ?_, ?_, ?_⟩ <;> intro h <;>
    simp [get_transaction, get_raw_transaction, rpc_call, h]

/-- Witness for the amended C5: any RPC error object maps to None, an
HTTP failure propagates. -/
theorem rpc_error_mapping_witness :
    get_transaction invalidParamsServer "ab12" = .ok none ∧
    get_transaction httpDownServer "ab12" = .error (.httpError "connect timeout") ∧
    get_raw_transaction invalidParamsServer "ab12" false = .ok none ∧
    get_raw_transaction httpDownServer "ab12" false =
      .error (.httpError "connect timeout") :=
  ⟨(rpc_error_mapping invalidParamsServer "ab12" (-32602) "Invalid params"
      "connect timeout" false).1 rfl,
   (rpc_error_mapping httpDownServer "ab12" (-32602) "Invalid params"
      "connect timeout" false).2.1 rfl,
   (rpc_error_mapping invalidParamsServer "ab12" (-32602) "Invalid params"
      "connect timeout" false).2.2.1 rfl,
   (rpc_error_mapping httpDownServer "ab12" (-32602) "Invalid params"
      "connect timeout" false).2.2.2 rfl⟩

/-- Claim C4 is false on the code: with the external service preferred and
both the GetBlock query and the node-wallet fallback failing, the caller
receives exactly the node-wallet error; two runs whose GetBlock failures
differ surface the identical error, so the surfaced error carries no
information about the external-service failure cause and is not an
aggregated error identifying both causes. -/
theorem getbalance_no_aggregated_error_counterexample :
    (getbalance envPrimaryTimeout stClientReady).1 =
      .error (.valueError "node wallet down") ∧
    (getbalance envPrimaryAuthFail stClientReady).1 =
      .error (.valueError "node wallet down") ∧
    envPrimaryTimeout.getblockBalanceResult =
      .error (.valueError "getblock timeout") ∧
    envPrimaryAuthFail.getblockBalanceResult =
      .error (.httpError "getblock unauthorized") :=
  ⟨rfl, rfl, rfl, rfl⟩

/-- Claim C4 amended: if the provider prefers the external service and
that path fails for any reason (client construction or the balance
query), the node-wallet path is attempted and its result — success or
failure — is returned verbatim; the external-service error is never part
of the surfaced result, so when both paths fail the caller receives only
the node-wallet error, not an aggregate of both causes. -/
theorem getbalance_fallback (env : GetbalanceEnv) (st : HDModuleState)
    (e : PyErr) (huse : st.use_getblock_for_balance = true) :
    (st.getblock_client.isSome → env.getblockBalanceResult = .error e →
      (getbalance env st).1 = env.nodeWalletBalanceResult) ∧
    (st.getblock_client = none → env.createClientResult = .error e →
      (getbalance env st).1 = env.nodeWalletBalanceResult) ∧
    (st.getblock_client = none → ∀ c, env.createClientResult = .ok c →
      env.getblockBalanceResult = .error e →
      (getbalance env st).1 = env.nodeWalletBalanceResult) := by
  refine ⟨?_, ?_, ?_⟩
  · intro hcl herr
    obtain ⟨c, hc⟩ := Option.isSome_iff_exists.mp hcl
    simp [getbalance, huse, hc, getbalanceQuery, herr]
  · intro hcl hcreate
    simp [getbalance, huse, hcl, hcreate]
  · intro hcl c hcreate herr
    simp [getbalance, huse, hcl, hcreate, getbalanceQuery, herr]

/-- Witness for the amended C4: a failing GetBlock query followed by a
succeeding node wallet yields the node-wallet balance 7; with the node
wallet also failing, its error is surfaced verbatim. -/
theorem getbalance_fallback_witness :
    (getbalance envFallbackOk stClientReady).1 = .ok 7 ∧
    (getbalance envPrimaryAuthFail stClientReady).1 =
      .error (.valueError "node wallet down") :=
  ⟨(getbalance_fallback envFallbackOk stClientReady
      (.valueError "getblock timeout") rfl).1 rfl rfl,
   (getbalance_fallback envPrimaryAuthFail stClientReady
      (.httpError "getblock unauthorized") rfl).1 rfl rfl⟩

/-- Claim C3: get_address_balance queries listunspent with
minimum-confirmation filter 0, maximum-confirmation filter 9999999 and
exactly the one requested address, and returns the sum of the amount
fields of the returned unspent outputs; a query returning zero unspent
outputs yields exactly 0, never an error. -/
theorem get_address_balance_sums_utxos (srv : RpcServer) (address : String)
    (utxos : List Utxo)
    (h : srv.respond "listunspent" [.int 0, .int 9999999, .strList [address]] =
      .success (some (.utxoList utxos))) :
    get_address_balance srv address = .ok (sumUtxoAmounts utxos) ∧
    (utxos = [] → get_address_balance srv address = .ok 0) := by
  constructor
  · by_cases he : utxos = []
    · subst he
      simp [get_address_balance, rpc_call, h, sumUtxoAmounts]
    · simp [get_address_balance, rpc_call, h, he]
  · intro he
    subst he
    simp [get_address_balance, rpc_call, h]

/-- Witness for C3: two unspent outputs of 1.5 and 0.5 sum to balance 2;
an empty unspent-output list gives balance 0 with no error. -/
theorem get_address_balance_sums_utxos_witness :
    get_address_balance utxoServer "bc1qaddr" = .ok 2 ∧
    get_address_balance emptyUtxoServer "bc1qaddr" = .ok 0 := by
  constructor
  · have h := (get_address_balance_sums_utxos utxoServer "bc1qaddr"
      [{ txid := "t1", vout := 0, amount := (3 : Rat) / 2 },
       { txid := "t2", vout := 1, amount := (1 : Rat) / 2 }] rfl).1
    have hsum : sumUtxoAmounts
        [{ txid := "t1", vout := 0, amount := (3 : Rat) / 2 },
         { txid := "t2", vout := 1, amount := (1 : Rat) / 2 }] = 2 := by
      norm_num [sumUtxoAmounts]
    rw [hsum] at h
    exact h
  · exact (get_address_balance_sums_utxos emptyUtxoServer "bc1qaddr" [] rfl).2 rfl

end Shkeeper
